import Mathlib

/-!
Verification of the TrendLab dashboard (`app.py`): a shallow embedding of its
page router, CSV-ingestion logic, time-series rendering pipeline and
hypothesis-testing rendering pipeline, followed by theorems settling the
specified behavioural claims.

Library calls (seasonal_decompose, adfuller, ARIMA, ttest_ind,
chi2_contingency) are modelled as oracle parameters: the embedding records
exactly which arguments the app passes them and how their results or
exceptions flow through the rendered page.
-/

/-- A substring test on lists of characters: `substrAux needle hay` is true
iff `needle` occurs contiguously inside `hay`.  Models Python's
`needle in hay`. -/
def substrAux (needle : List Char) : List Char → Bool
  | [] => needle.isEmpty
  | c :: t => List.isPrefixOf needle (c :: t) || substrAux needle t

/-- `strContains hay needle` models Python's `needle in hay` on strings. -/
def strContains (hay needle : String) : Bool :=
  substrAux needle.data hay.data

/-- Python's `str.lower()`, character by character. -/
def lowerStr (s : String) : String :=
  String.mk (s.data.map Char.toLower)

/-- Models `"date" in c.lower()` (app.py line 116). -/
def hasDateInName (c : String) : Bool :=
  strContains (lowerStr c) "date"

/-- One cell of an uploaded CSV column, abstracted by how pandas treats it:
`date d` is a value `pd.to_datetime` converts to timestamp `d`;
`num q` is a numeric value (which `pd.to_datetime` accepts as an epoch);
`txt s` is a non-date-like text value on which `pd.to_datetime` raises. -/
inductive Cell
  | date (d : ℤ)
  | num (q : ℚ)
  | txt (s : String)
deriving DecidableEq

/-- The dtype pandas infers for a column in `pd.read_csv`. -/
inductive Dtype
  | float64
  | int64
  | object
  | other
deriving DecidableEq

/-- A named, typed column of the uploaded table. -/
structure Column where
  name : String
  dtype : Dtype
  values : List Cell
deriving DecidableEq

/-- The in-memory table produced by `pd.read_csv`: an ordered sequence of
named columns. -/
structure DataFrame where
  columns : List Column
deriving DecidableEq

/-- `date_cols = [c for c in df.columns if "date" in c.lower()]`
(app.py line 116). -/
def dateCols (df : DataFrame) : List String :=
  (df.columns.filter (fun c => hasDateInName c.name)).map (fun c => c.name)

/-- The column chosen as the date index: `date_cols[0]` when `date_cols`
is nonempty (app.py lines 121-122). -/
def selectDateCol (df : DataFrame) : Option String :=
  (dateCols df).head?

/-- `df.select_dtypes(include=['float64', 'int64']).columns`
(app.py lines 129, 204). -/
def numCols (df : DataFrame) : List String :=
  (df.columns.filter (fun c => c.dtype = Dtype.float64 ∨ c.dtype = Dtype.int64)).map
    (fun c => c.name)

/-- `df.select_dtypes(include=['object']).columns` (app.py line 221). -/
def catCols (df : DataFrame) : List String :=
  (df.columns.filter (fun c => c.dtype = Dtype.object)).map (fun c => c.name)

/-- The values of the column named `name`, empty if absent (`df[name]`). -/
def colValues (df : DataFrame) (name : String) : List Cell :=
  match df.columns.find? (fun c => c.name = name) with
  | some c => c.values
  | none => []

/-- `pd.to_datetime` on one cell: succeeds on date-like and numeric values,
raises on other text (default `errors='raise'`). -/
def toDatetimeCell : Cell → Except String ℤ
  | Cell.date d => Except.ok d
  | Cell.num q => Except.ok ⌊q⌋
  | Cell.txt s => Except.error ("Unknown datetime string format: " ++ s)

/-- `pd.to_datetime(df[date_cols[0]])` (app.py line 121): parses every cell,
raising as soon as one cell fails — no partial-row recovery. -/
def toDatetime : List Cell → Except String (List ℤ)
  | [] => Except.ok []
  | v :: vs =>
    match toDatetimeCell v with
    | Except.error e => Except.error e
    | Except.ok d =>
      match toDatetime vs with
      | Except.error e => Except.error e
      | Except.ok ds => Except.ok (d :: ds)

/-- One rendered page element (plots, statistics blocks, banners). -/
inductive Out
  | dataPreview
  | tsPlot (column : String)
  | decompPlot
  | adfStat (stat pval : ℚ)
  | forecastPlot (history : List Cell) (future : List ℚ)
  | ttestResult (t p : ℚ)
  | chiResult (chi p : ℚ)
  | successMsg (msg : String)
  | warnMsg (msg : String)
  | errorMsg (msg : String)
deriving DecidableEq

/-- The outcome of one script run: the page elements rendered, plus the
unhandled exception (if any) that propagated to the hosting runtime.
`st.stop()` and caught exceptions leave `err = none`. -/
structure RenderResult where
  outs : List Out
  err : Option String
deriving DecidableEq

/-- The fixed significance threshold `0.05` appearing in all three verdicts
(app.py lines 160, 214, 236). -/
def pThreshold : ℚ := mkRat 5 100

/-- The ADF verdict banner (app.py lines 160-163): success iff p < 0.05. -/
def adfVerdictOut (p : ℚ) : Out :=
  if p < pThreshold then Out.successMsg "Data is Stationary"
  else Out.warnMsg "Data is Not Stationary"

/-- The t-test verdict banner (app.py lines 214-217). -/
def tVerdictOut (p : ℚ) : Out :=
  if p < pThreshold then Out.successMsg "Reject H₀ — Significant Difference"
  else Out.warnMsg "Fail to Reject H₀"

/-- The chi-square verdict banner (app.py lines 236-239). -/
def chiVerdictOut (p : ℚ) : Out :=
  if p < pThreshold then Out.successMsg "Reject H₀ — Dependent Variables"
  else Out.warnMsg "Fail to Reject H₀ — Independent"

/-- `st.slider(label, lo, hi, default)`: the widget only ever yields a value
inside `[lo, hi]`; a requested value is clamped to the range
(app.py line 169). -/
def slider (lo hi v : ℕ) : ℕ :=
  max lo (min hi v)

/-- Oracles for the statistics library calls the time-series page makes.
`decompose` takes the seasonal model name and period the app passes;
`adfuller` yields (statistic, p-value) or raises; `arima` takes the ARIMA
order and on success yields the fitted model's forecast stream (element `i`
of the stream is forecast step `i`, so `forecast(steps=n)` is its first `n`
elements). -/
structure TSOracles where
  decompose : String → ℕ → Except String Unit
  adfuller : Except String (ℚ × ℚ)
  arima : ℕ → ℕ → ℕ → Except String (ℕ → ℚ)

/-- The time-series page body for an uploaded file (app.py lines 111-183):
date-column detection with `st.error`/`st.stop` on failure, `to_datetime`
indexing (unguarded), preview, line plot, guarded seasonal decomposition
with model 'additive' and period 12, unguarded ADF test with its verdict,
forecast-steps slider, and guarded ARIMA(1,1,1) forecast. -/
def timeSeriesRender (df : DataFrame) (column : String) (stepsSel : ℕ)
    (orc : TSOracles) : RenderResult :=
  match selectDateCol df with
  | none => ⟨[Out.errorMsg "No date column found!"], none⟩
  | some dc =>
    match toDatetime (colValues df dc) with
    | Except.error e => ⟨[], some e⟩
    | Except.ok _ =>
      let pre := [Out.dataPreview, Out.tsPlot column]
      let decompOuts :=
        match orc.decompose "additive" 12 with
        | Except.ok _ => [Out.decompPlot]
        | Except.error e => [Out.warnMsg ("Decomposition error: " ++ e)]
      match orc.adfuller with
      | Except.error e => ⟨pre ++ decompOuts, some e⟩
      | Except.ok (s, p) =>
        let adfOuts := [Out.adfStat s p, adfVerdictOut p]
        let steps := slider 5 60 stepsSel
        let arimaOuts :=
          match orc.arima 1 1 1 with
          | Except.ok f =>
            [Out.forecastPlot (colValues df column) ((List.range steps).map f)]
          | Except.error _ => [Out.warnMsg "ARIMA failed. Try more data."]
        ⟨pre ++ decompOuts ++ adfOuts ++ arimaOuts, none⟩

/-- Which hypothesis test the selectbox chose (app.py line 201). -/
inductive HTest
  | ttest
  | chisq
deriving DecidableEq

/-- Oracles for the hypothesis-testing library calls: `ttest_ind` yields
(t-statistic, p-value) for the two selected samples; `chi2` yields
(chi-square statistic, p-value, dof) for the contingency table built by
`pd.crosstab` from the zipped pairs of the two selected columns. -/
structure HypOracles where
  ttest_ind : Except String (ℚ × ℚ)
  chi2 : List (Cell × Cell) → ℚ × ℚ × ℕ

/-- The hypothesis-testing page body for an uploaded file
(app.py lines 193-240): preview, then either the t-test branch (result and
verdict once Run is clicked) or the chi-square branch, which first requires
at least two object-dtype columns (`st.error` otherwise) and only then
builds the contingency table and runs the test. -/
def hypothesisRender (df : DataFrame) (test : HTest) (c1 c2 : String)
    (runClicked : Bool) (orc : HypOracles) : RenderResult :=
  let pre := [Out.dataPreview]
  match test with
  | HTest.ttest =>
    if runClicked then
      match orc.ttest_ind with
      | Except.ok (t, p) => ⟨pre ++ [Out.ttestResult t p, tVerdictOut p], none⟩
      | Except.error e => ⟨pre, some e⟩
    else ⟨pre, none⟩
  | HTest.chisq =>
    if (catCols df).length < 2 then
      ⟨pre ++ [Out.errorMsg "Need 2 categorical columns!"], none⟩
    else if runClicked then
      let contingency := List.zip (colValues df c1) (colValues df c2)
      let r := orc.chi2 contingency
      ⟨pre ++ [Out.chiResult r.1 r.2.1, chiVerdictOut r.2.1], none⟩
    else ⟨pre, none⟩

/-- Initial session page: `st.session_state.page = "home"` on first load
(app.py lines 77-78). -/
def initPage : String := "home"

/-- The three navigation actions wired to buttons: the two home-page buttons
(app.py lines 94-99) and the Back buttons (lines 106, 188). -/
inductive NavEvent
  | toTimeSeries
  | toHypothesis
  | back
deriving DecidableEq

/-- `go_to(page)` at its call sites: each button passes one fixed literal
(app.py lines 80-81, 95, 99, 106, 188). -/
def navStep (_page : String) : NavEvent → String
  | NavEvent.toTimeSeries => "time_series"
  | NavEvent.toHypothesis => "hypothesis"
  | NavEvent.back => "home"

/-- The session page after a sequence of navigation actions from first
load. -/
def runNav (es : List NavEvent) : String :=
  es.foldl navStep initPage

/-- A numeric column used as concrete test data. -/
def salesCol : Column :=
  ⟨"Sales", Dtype.float64, [Cell.num 3, Cell.num 4, Cell.num 5]⟩

/-- A parseable date column. -/
def orderDateCol : Column :=
  ⟨"OrderDate", Dtype.other, [Cell.date 0, Cell.date 1, Cell.date 2]⟩

/-- A date-named column whose values do not parse as dates. -/
def dateUpdatedCol : Column :=
  ⟨"Date Updated", Dtype.other, [Cell.txt "pending", Cell.txt "n/a", Cell.txt "soon"]⟩

/-- A second, parseable date-named column, appearing after `dateUpdatedCol`. -/
def orderDateCol2 : Column :=
  ⟨"order_date", Dtype.other, [Cell.date 7, Cell.date 8, Cell.date 9]⟩

/-- A table with a date column and a numeric column. -/
def dfSales : DataFrame := ⟨[orderDateCol, salesCol]⟩

/-- A table with no date-named column at all. -/
def dfNoDate : DataFrame := ⟨[salesCol]⟩

/-- A table whose first date-named column is unparseable while a later one
is parseable. -/
def dfTwoDates : DataFrame := ⟨[salesCol, dateUpdatedCol, orderDateCol2]⟩

/-- A table whose only date column contains one unparseable value. -/
def dfBadDate : DataFrame :=
  ⟨[⟨"OrderDate", Dtype.other, [Cell.date 0, Cell.txt "not-a-date", Cell.date 2]⟩,
    salesCol]⟩

/-- Oracles where every library call succeeds. -/
def orcOK : TSOracles :=
  ⟨fun _ _ => Except.ok (), Except.ok (1, mkRat 1 100),
   fun _ _ _ => Except.ok (fun i : ℕ => (i : ℚ))⟩

/-- Oracles where seasonal decomposition raises. -/
def orcDecompFail : TSOracles :=
  ⟨fun _ _ => Except.error "x must have 2 complete cycles requires 24 observations",
   Except.ok (1, mkRat 1 100), fun _ _ _ => Except.ok (fun i : ℕ => (i : ℚ))⟩

/-- Oracles where the ADF test raises. -/
def orcAdfFail : TSOracles :=
  ⟨fun _ _ => Except.ok (), Except.error "ValueError: invalid value encountered",
   fun _ _ _ => Except.ok (fun i : ℕ => (i : ℚ))⟩

/-- Oracles where ARIMA fitting raises. -/
def orcArimaFail : TSOracles :=
  ⟨fun _ _ => Except.ok (), Except.ok (1, mkRat 1 100),
   fun _ _ _ => Except.error "LinAlgError: Schur decomposition solver error"⟩

/-- Hypothesis-page oracles used in concrete runs. -/
def hypOrc : HypOracles :=
  ⟨Except.ok (2, mkRat 3 100), fun _ => (1, mkRat 2 10, 1)⟩

/-- `pThreshold` is the source's literal `0.05`. -/
theorem pThreshold_eq : pThreshold = 0.05 := by
  rw [pThreshold, Rat.mkRat_eq_div]; norm_num

/-- Columns none of whose names contain "date" survive no filtering. -/
theorem filter_hasDate_eq_nil (l : List Column)
    (h : ∀ c ∈ l, hasDateInName c.name = false) :
    List.filter (fun c => hasDateInName c.name) l = [] := by
  induction l with
  | nil => rfl
  | cons c t ih =>
    rw [List.filter_cons_of_neg]
    · exact ih fun c2 hc2 => h c2 (List.mem_cons_of_mem c hc2)
    · simp [h c (List.mem_cons_self c t)]

/-- A table with no date-named column has an empty `date_cols`. -/
theorem dateCols_eq_nil (df : DataFrame)
    (h : ∀ c ∈ df.columns, hasDateInName c.name = false) :
    dateCols df = [] := by
  unfold dateCols
  rw [filter_hasDate_eq_nil df.columns h]
  rfl

/-- A list containing an unparseable cell makes `to_datetime` raise. -/
theorem toDatetime_error_of_mem {vs : List Cell} {s : String}
    (h : Cell.txt s ∈ vs) : ∃ e, toDatetime vs = Except.error e := by
  induction vs with
  | nil => cases h
  | cons v t ih =>
    cases h with
    | head =>
      exact ⟨"Unknown datetime string format: " ++ s,
        by simp [toDatetime, toDatetimeCell]⟩
    | tail _ hm =>
      obtain ⟨e, he⟩ := ih hm
      cases hv : toDatetimeCell v with
      | error e2 => exact ⟨e2, by simp [toDatetime, hv]⟩
      | ok d => exact ⟨e, by simp [toDatetime, hv, he]⟩

/-- C1: For every p-value produced by the ADF test, the t-test, or the
chi-square test, the rendered verdict is a deterministic function of p
alone: the success verdict is shown iff p < 0.05, the complementary verdict
otherwise; at the boundary, p = 0.0499 is significant, p = 0.0501 is not,
and p = 0.05 exactly yields the complementary label. -/
theorem verdict_is_threshold_function_of_p :
    (∀ p : ℚ,
      (adfVerdictOut p = Out.successMsg "Data is Stationary" ↔ p < 0.05) ∧
      (adfVerdictOut p = Out.warnMsg "Data is Not Stationary" ↔ ¬ p < 0.05) ∧
      (tVerdictOut p = Out.successMsg "Reject H₀ — Significant Difference" ↔
        p < 0.05) ∧
      (tVerdictOut p = Out.warnMsg "Fail to Reject H₀" ↔ ¬ p < 0.05) ∧
      (chiVerdictOut p = Out.successMsg "Reject H₀ — Dependent Variables" ↔
        p < 0.05) ∧
      (chiVerdictOut p = Out.warnMsg "Fail to Reject H₀ — Independent" ↔
        ¬ p < 0.05)) ∧
    adfVerdictOut (mkRat 499 10000) = Out.successMsg "Data is Stationary" ∧
    tVerdictOut (mkRat 499 10000) =
      Out.successMsg "Reject H₀ — Significant Difference" ∧
    chiVerdictOut (mkRat 499 10000) =
      Out.successMsg "Reject H₀ — Dependent Variables" ∧
    adfVerdictOut (mkRat 501 10000) = Out.warnMsg "Data is Not Stationary" ∧
    adfVerdictOut (mkRat 5 100) = Out.warnMsg "Data is Not Stationary" := by
  refine ⟨fun p => ?_, by decide, by decide, by decide, by decide, by decide⟩
  rw [← pThreshold_eq]
  unfold adfVerdictOut tVerdictOut chiVerdictOut
  by_cases h : p < pThreshold <;> simp [h]

/-- C2: If no column name of the uploaded CSV contains "date"
(case-insensitive), time-series mode renders exactly the missing-date-column
error: no preview, plot, decomposition, ADF test, or forecast appears, and
no exception escapes to the runtime. -/
theorem missing_date_column_halts (df : DataFrame) (column : String)
    (stepsSel : ℕ) (orc : TSOracles)
    (h : ∀ c ∈ df.columns, hasDateInName c.name = false) :
    timeSeriesRender df column stepsSel orc =
      ⟨[Out.errorMsg "No date column found!"], none⟩ := by
  unfold timeSeriesRender selectDateCol
  rw [dateCols_eq_nil df h]
  rfl

/-- C2 witness: a table whose only column is `Sales` renders exactly the
missing-date-column error. -/
theorem missing_date_column_halts_witness :
    (∀ c ∈ dfNoDate.columns, hasDateInName c.name = false) ∧
    timeSeriesRender dfNoDate "Sales" 12 orcOK =
      ⟨[Out.errorMsg "No date column found!"], none⟩ :=
  ⟨by decide, missing_date_column_halts dfNoDate "Sales" 12 orcOK (by decide)⟩

/-- C3: With fewer than two object-dtype columns, chi-square mode renders
the preview followed by exactly the insufficient-categorical-columns error:
no contingency table is built and no chi-square test output appears. -/
theorem chi_square_requires_two_cat_cols (df : DataFrame) (c1 c2 : String)
    (clicked : Bool) (orc : HypOracles) (h : (catCols df).length < 2) :
    hypothesisRender df HTest.chisq c1 c2 clicked orc =
      ⟨[Out.dataPreview, Out.errorMsg "Need 2 categorical columns!"], none⟩ := by
  simp [hypothesisRender, h]

/-- C3 witness: `dfSales` has no object-dtype column, so chi-square mode
stops at the error banner. -/
theorem chi_square_requires_two_cat_cols_witness :
    (catCols dfSales).length < 2 ∧
    hypothesisRender dfSales HTest.chisq "a" "b" true hypOrc =
      ⟨[Out.dataPreview, Out.errorMsg "Need 2 categorical columns!"], none⟩ :=
  ⟨by decide, chi_square_requires_two_cat_cols dfSales "a" "b" true hypOrc
    (by decide)⟩

/-- C4: Whenever the column list splits as earlier columns without "date"
in their names, then a column `c` whose name does contain "date", the
ingestor picks exactly `c` as the date index — independently of how many
later date-named columns exist and of any column's parseability. -/
theorem first_date_column_is_index (df : DataFrame) (pre : List Column)
    (c : Column) (rest : List Column)
    (hsplit : df.columns = pre ++ c :: rest)
    (hpre : ∀ c2 ∈ pre, hasDateInName c2.name = false)
    (hc : hasDateInName c.name = true) :
    selectDateCol df = some c.name := by
  unfold selectDateCol dateCols
  rw [hsplit, List.filter_append, filter_hasDate_eq_nil pre hpre]
  simp [hc]

/-- C4 witness: in `dfTwoDates` the unparseable `Date Updated` column comes
before the parseable `order_date` column, and is the one selected. -/
theorem first_date_column_is_index_witness :
    hasDateInName dateUpdatedCol.name = true ∧
    selectDateCol dfTwoDates = some "Date Updated" :=
  ⟨by decide, first_date_column_is_index dfTwoDates [salesCol] dateUpdatedCol
    [orderDateCol2] rfl (by decide) (by decide)⟩

/-- C5: Seasonal decomposition is always invoked with the additive model
and period 12 — the page render depends on the decomposition library only
through its behaviour at those fixed arguments — and when it raises, the
error message is shown as a warning while the ADF section and the forecast
section (exactly one further element) still render, with no exception
escaping. -/
theorem decomposition_additive_12_failure_nonfatal :
    (∀ (df : DataFrame) (column : String) (stepsSel : ℕ) (o o2 : TSOracles),
      o.decompose "additive" 12 = o2.decompose "additive" 12 →
      o.adfuller = o2.adfuller → o.arima = o2.arima →
      timeSeriesRender df column stepsSel o =
        timeSeriesRender df column stepsSel o2) ∧
    (∀ (df : DataFrame) (dc column : String) (stepsSel : ℕ) (o : TSOracles)
      (e : String) (ds : List ℤ) (s p : ℚ),
      selectDateCol df = some dc →
      toDatetime (colValues df dc) = Except.ok ds →
      o.decompose "additive" 12 = Except.error e →
      o.adfuller = Except.ok (s, p) →
      (timeSeriesRender df column stepsSel o).err = none ∧
      ∃ tail, (timeSeriesRender df column stepsSel o).outs =
        [Out.dataPreview, Out.tsPlot column,
         Out.warnMsg ("Decomposition error: " ++ e),
         Out.adfStat s p, adfVerdictOut p] ++ tail ∧ tail.length = 1) := by
  constructor
  · intro df column stepsSel o o2 h1 h2 h3
    unfold timeSeriesRender
    rw [h1, h2, h3]
  · intro df dc column stepsSel o e ds s p hdc hdt hdec hadf
    cases harima : o.arima 1 1 1 with
    | ok f =>
      refine ⟨?_, [Out.forecastPlot (colValues df column)
        ((List.range (slider 5 60 stepsSel)).map f)], ?_, rfl⟩ <;>
        simp [timeSeriesRender, hdc, hdt, hdec, hadf, harima]
    | error e2 =>
      refine ⟨?_, [Out.warnMsg "ARIMA failed. Try more data."], ?_, rfl⟩ <;>
        simp [timeSeriesRender, hdc, hdt, hdec, hadf, harima]

/-- C5 witness: on `dfSales` with a failing decomposition oracle, the
warning carries the library message and the ADF and forecast sections still
render. -/
theorem decomposition_additive_12_failure_nonfatal_witness :
    orcDecompFail.decompose "additive" 12 =
      Except.error "x must have 2 complete cycles requires 24 observations" ∧
    (timeSeriesRender dfSales "Sales" 12 orcDecompFail).err = none ∧
    ∃ tail, (timeSeriesRender dfSales "Sales" 12 orcDecompFail).outs =
      [Out.dataPreview, Out.tsPlot "Sales",
       Out.warnMsg ("Decomposition error: " ++
         "x must have 2 complete cycles requires 24 observations"),
       Out.adfStat 1 (mkRat 1 100), adfVerdictOut (mkRat 1 100)] ++ tail ∧
      tail.length = 1 :=
  ⟨rfl, decomposition_additive_12_failure_nonfatal.2 dfSales "OrderDate" "Sales"
    12 orcDecompFail "x must have 2 complete cycles requires 24 observations"
    [0, 1, 2] 1 (mkRat 1 100) (by decide) rfl rfl rfl⟩

/-- C6: The forecast horizon is always in [5, 60] — the slider clamps any
requested value — and for every in-range horizon `n` a successful ARIMA
run renders a forecast plot whose forecast series has length exactly `n`. -/
theorem forecast_horizon_bounds_and_length :
    (∀ v : ℕ, 5 ≤ slider 5 60 v ∧ slider 5 60 v ≤ 60) ∧
    (∀ (df : DataFrame) (dc column : String) (n : ℕ) (o : TSOracles)
      (ds : List ℤ) (s p : ℚ) (f : ℕ → ℚ),
      selectDateCol df = some dc →
      toDatetime (colValues df dc) = Except.ok ds →
      o.adfuller = Except.ok (s, p) →
      o.arima 1 1 1 = Except.ok f →
      5 ≤ n → n ≤ 60 →
      ∃ rest fut, (timeSeriesRender df column n o).outs =
        rest ++ [Out.forecastPlot (colValues df column) fut] ∧
        fut.length = n) := by
  constructor
  · intro v
    unfold slider
    omega
  · intro df dc column n o ds s p f hdc hdt hadf harima h5 h60
    have hn : slider 5 60 n = n := by unfold slider; omega
    cases hdec : o.decompose "additive" 12 with
    | ok u =>
      refine ⟨[Out.dataPreview, Out.tsPlot column, Out.decompPlot,
        Out.adfStat s p, adfVerdictOut p], (List.range n).map f, ?_, by simp⟩
      simp [timeSeriesRender, hdc, hdt, hdec, hadf, harima, hn]
    | error e =>
      refine ⟨[Out.dataPreview, Out.tsPlot column,
        Out.warnMsg ("Decomposition error: " ++ e),
        Out.adfStat s p, adfVerdictOut p], (List.range n).map f, ?_, by simp⟩
      simp [timeSeriesRender, hdc, hdt, hdec, hadf, harima, hn]

/-- C6 witness: horizon 12 on `dfSales` renders a forecast of length
exactly 12. -/
theorem forecast_horizon_bounds_and_length_witness :
    orcOK.arima 1 1 1 = Except.ok (fun i : ℕ => (i : ℚ)) ∧
    ∃ rest fut, (timeSeriesRender dfSales "Sales" 12 orcOK).outs =
      rest ++ [Out.forecastPlot (colValues dfSales "Sales") fut] ∧
      fut.length = 12 :=
  ⟨rfl, forecast_horizon_bounds_and_length.2 dfSales "OrderDate" "Sales" 12
    orcOK [0, 1, 2] 1 (mkRat 1 100) (fun i : ℕ => (i : ℚ)) (by decide) rfl
    rfl rfl (by decide) (by decide)⟩

/-- C7: The ARIMA model is always fitted with the fixed order (1,1,1) — the
render depends on the ARIMA library only through its behaviour at that
order — and every fitting/forecasting exception is swallowed into the same
generic warning carrying no detail of the underlying error, with the page
finishing normally. -/
theorem arima_order_fixed_failure_generic_warning :
    (∀ (df : DataFrame) (column : String) (stepsSel : ℕ) (o o2 : TSOracles),
      o.decompose = o2.decompose → o.adfuller = o2.adfuller →
      o.arima 1 1 1 = o2.arima 1 1 1 →
      timeSeriesRender df column stepsSel o =
        timeSeriesRender df column stepsSel o2) ∧
    (∀ (df : DataFrame) (dc column : String) (stepsSel : ℕ) (o : TSOracles)
      (e : String) (ds : List ℤ) (s p : ℚ),
      selectDateCol df = some dc →
      toDatetime (colValues df dc) = Except.ok ds →
      o.adfuller = Except.ok (s, p) →
      o.arima 1 1 1 = Except.error e →
      (timeSeriesRender df column stepsSel o).err = none ∧
      ∃ rest, (timeSeriesRender df column stepsSel o).outs =
        rest ++ [Out.warnMsg "ARIMA failed. Try more data."]) := by
  constructor
  · intro df column stepsSel o o2 h1 h2 h3
    unfold timeSeriesRender
    rw [h1, h2, h3]
  · intro df dc column stepsSel o e ds s p hdc hdt hadf harima
    cases hdec : o.decompose "additive" 12 with
    | ok u =>
      refine ⟨?_, [Out.dataPreview, Out.tsPlot column, Out.decompPlot,
        Out.adfStat s p, adfVerdictOut p], ?_⟩ <;>
        simp [timeSeriesRender, hdc, hdt, hdec, hadf, harima]
    | error e2 =>
      refine ⟨?_, [Out.dataPreview, Out.tsPlot column,
        Out.warnMsg ("Decomposition error: " ++ e2),
        Out.adfStat s p, adfVerdictOut p], ?_⟩ <;>
        simp [timeSeriesRender, hdc, hdt, hdec, hadf, harima]

/-- C7 witness: an ARIMA failure with a detailed library error renders only
the fixed generic warning and the run ends without an escaping exception. -/
theorem arima_order_fixed_failure_generic_warning_witness :
    orcArimaFail.arima 1 1 1 =
      Except.error "LinAlgError: Schur decomposition solver error" ∧
    (timeSeriesRender dfSales "Sales" 12 orcArimaFail).err = none ∧
    ∃ rest, (timeSeriesRender dfSales "Sales" 12 orcArimaFail).outs =
      rest ++ [Out.warnMsg "ARIMA failed. Try more data."] :=
  ⟨rfl, arima_order_fixed_failure_generic_warning.2 dfSales "OrderDate" "Sales"
    12 orcArimaFail "LinAlgError: Schur decomposition solver error" [0, 1, 2]
    1 (mkRat 1 100) (by decide) rfl rfl rfl⟩

/-- C8: If the selected date column contains any value that fails to parse
as a calendar date, the whole ingestion fails atomically: the run ends with
a propagated exception, no indexed table is produced, and no analysis output
(preview, plot, decomposition, ADF, forecast) is rendered. -/
theorem unparseable_date_aborts_ingestion (df : DataFrame) (dc column : String)
    (stepsSel : ℕ) (orc : TSOracles) (s : String)
    (hdc : selectDateCol df = some dc)
    (hmem : Cell.txt s ∈ colValues df dc) :
    ∃ e, timeSeriesRender df column stepsSel orc = ⟨[], some e⟩ := by
  obtain ⟨e, he⟩ := toDatetime_error_of_mem hmem
  exact ⟨e, by simp [timeSeriesRender, hdc, he]⟩

/-- C8 witness: one bad value in `dfBadDate`'s only date column aborts the
whole run with nothing rendered. -/
theorem unparseable_date_aborts_ingestion_witness :
    selectDateCol dfBadDate = some "OrderDate" ∧
    Cell.txt "not-a-date" ∈ colValues dfBadDate "OrderDate" ∧
    ∃ e, timeSeriesRender dfBadDate "Sales" 12 orcOK = ⟨[], some e⟩ :=
  ⟨by decide, by decide, unparseable_date_aborts_ingestion dfBadDate
    "OrderDate" "Sales" 12 orcOK "not-a-date" (by decide) (by decide)⟩

/-- Every single navigation step lands on one of the three known pages. -/
theorem navStep_mem (p : String) (e : NavEvent) :
    navStep p e = "home" ∨ navStep p e = "time_series" ∨
      navStep p e = "hypothesis" := by
  cases e with
  | toTimeSeries => exact Or.inr (Or.inl rfl)
  | toHypothesis => exact Or.inr (Or.inr rfl)
  | back => exact Or.inl rfl

/-- Folding navigation steps preserves membership in the page enum. -/
theorem foldl_nav_mem (es : List NavEvent) (p : String)
    (h : p = "home" ∨ p = "time_series" ∨ p = "hypothesis") :
    es.foldl navStep p = "home" ∨ es.foldl navStep p = "time_series" ∨
      es.foldl navStep p = "hypothesis" := by
  induction es generalizing p with
  | nil => simpa using h
  | cons e t ih => exact ih (navStep p e) (navStep_mem p e)

/-- C9: The session page field is initialized to "home" on first load, and
after any sequence of button-triggered navigation actions it is always one
of the three values home / time_series / hypothesis. -/
theorem page_always_in_enum :
    runNav [] = "home" ∧
    ∀ es : List NavEvent, runNav es = "home" ∨ runNav es = "time_series" ∨
      runNav es = "hypothesis" := by
  refine ⟨rfl, fun es => ?_⟩
  exact foldl_nav_mem es initPage (Or.inl rfl)

/-- C10: The ADF call is not wrapped in any handler: when `adfuller` raises
on the selected series, the exception propagates past the renderer to the
hosting runtime (it is not shown as a warning), and the forecast section
after it never renders — the page stops after the decomposition card. -/
theorem adfuller_exception_propagates (df : DataFrame) (dc column : String)
    (stepsSel : ℕ) (o : TSOracles) (e : String) (ds : List ℤ)
    (hdc : selectDateCol df = some dc)
    (hdt : toDatetime (colValues df dc) = Except.ok ds)
    (hdec : o.decompose "additive" 12 = Except.ok ())
    (hadf : o.adfuller = Except.error e) :
    timeSeriesRender df column stepsSel o =
      ⟨[Out.dataPreview, Out.tsPlot column, Out.decompPlot], some e⟩ := by
  simp [timeSeriesRender, hdc, hdt, hdec, hadf]

/-- C10 witness: on `dfSales` with a raising ADF oracle, the run ends with
the propagated exception and only the sections before the ADF card. -/
theorem adfuller_exception_propagates_witness :
    orcAdfFail.adfuller = Except.error "ValueError: invalid value encountered" ∧
    timeSeriesRender dfSales "Sales" 12 orcAdfFail =
      ⟨[Out.dataPreview, Out.tsPlot "Sales", Out.decompPlot],
       some "ValueError: invalid value encountered"⟩ :=
  ⟨rfl, adfuller_exception_propagates dfSales "OrderDate" "Sales" 12 orcAdfFail
    "ValueError: invalid value encountered" [0, 1, 2] (by decide) rfl rfl rfl⟩
